import Mathlib

/-!
Flash map resolver of the Zephyr port (boot/zephyr/flash_map_extended.c).

A shallow embedding of the C file and theorems about it.

Conventions of the embedding.

* C `int` values that are only passed around or compared (image indices, slot
  numbers, area ids, status codes) are `Int`; no arithmetic is done on them
  apart from the negation of an errno constant.
* `off_t` is the signed 32-bit type and `size_t` the unsigned 32-bit type of
  the 32-bit targets of the port.  A value of type `off_t` is an `Int` with
  `is_off_t`, and the two arithmetic operations of the file on `off_t`
  (`fa_off + off` and `start_offset - fa_off`) wrap with `wrap_off_t`; the cast
  `(size_t) off` is `to_size_t`.
* An output parameter is a value that goes in and comes out: a function that
  does not write through the pointer returns the value it was given.
* The flash driver is outside the file.  Its page query is a parameter that
  threads a driver state of an arbitrary type, so that a call of the driver is
  visible in the state that comes back.
* What the preprocessor fixes (errno constants, the partition table of
  sysflash.h, the hook, the device macros, the fixed partitions) is gathered
  in `Build`.
-/

namespace FlashMapExtended

/-! ## Machine integers -/

/-- Values representable in the signed 32-bit `off_t`. -/
def is_off_t (x : Int) : Prop := -2147483648 ≤ x ∧ x < 2147483648

instance (x : Int) : Decidable (is_off_t x) := by
  unfold is_off_t; exact inferInstance

/-- Values representable in the unsigned 32-bit `size_t`. -/
def is_size_t (n : Nat) : Prop := n < 4294967296

instance (n : Nat) : Decidable (is_size_t n) := by
  unfold is_size_t; exact inferInstance

/-- Result of an `off_t` addition or subtraction: two's complement wrap-around
to the signed 32-bit range. -/
def wrap_off_t (x : Int) : Int := (x + 2147483648) % 4294967296 - 2147483648

/-- The cast `(size_t) x` of a signed value: reduction modulo `2^32`. -/
def to_size_t (x : Int) : Nat := (x % 4294967296).toNat

/-! ## Data model -/

/-- Zephyr `struct flash_area`, with the fields the file reads.  The device
pointer `fa_dev` is a handle. -/
structure flash_area where
  fa_id : Nat
  fa_off : Int
  fa_size : Nat
  fa_dev : Nat
deriving DecidableEq, Repr

/-- Zephyr `struct flash_sector`: offset (`off_t`) and size (`size_t`). -/
structure flash_sector where
  fs_off : Int
  fs_size : Nat
deriving DecidableEq, Repr

/-- Zephyr `struct flash_pages_info`, filled in by the driver. -/
structure flash_pages_info where
  start_offset : Int
  size : Nat
  index : Nat
deriving DecidableEq, Repr

/-- The driver call `flash_get_page_info_by_offs(dev, offs, &info)`: from the
driver state, the device handle and the offset to the status, the content of
`info` after the call and the new driver state. -/
abbrev flash_driver (σ : Type) := σ → Nat → Int → Int × flash_pages_info × σ

/-- Everything the preprocessor and the linker fix for one build of the file.
None of it is defined in the file itself. -/
structure Build where
  /-- errno.h constant `EINVAL`. -/
  EINVAL : Int
  /-- errno.h constant `ERANGE`. -/
  ERANGE : Int
  /-- The status of boot_hooks.h by which a hook declines. -/
  BOOT_HOOK_REGULAR : Int
  /-- Whether `CONFIG_SINGLE_APPLICATION_SLOT` is defined. -/
  CONFIG_SINGLE_APPLICATION_SLOT : Bool
  /-- The macro `FLASH_AREA_IMAGE_PRIMARY(x)` of sysflash.h. -/
  FLASH_AREA_IMAGE_PRIMARY : Int → Int
  /-- The macro `FLASH_AREA_IMAGE_SECONDARY(x)` of sysflash.h. -/
  FLASH_AREA_IMAGE_SECONDARY : Int → Int
  /-- Outcome of `BOOT_HOOK_FLASH_AREA_CALL(flash_area_id_from_multi_image_slot_hook,
  BOOT_HOOK_REGULAR, image_index, slot, &id)`: from `image_index`, `slot` and
  the content of `id` before the call to the status and the content of `id`
  after it.  A build without hooks is the function that answers
  `BOOT_HOOK_REGULAR` and hands `id` back. -/
  flash_area_id_from_multi_image_slot_hook : Int → Int → Int → Int × Int
  /-- The macro `FLASH_DEVICE_ID`. -/
  FLASH_DEVICE_ID : Nat
  /-- The macro `FLASH_DEVICE_BASE`, an address (`uintptr_t`). -/
  FLASH_DEVICE_BASE : Nat
  /-- Handle of `flash_dev = DEVICE_DT_GET(FLASH_DEVICE_NODE)`. -/
  flash_dev : Nat
  /-- The id `FIXED_PARTITION_ID(slot0_partition)`. -/
  slot0_partition : Int
  /-- The id `FIXED_PARTITION_ID(slot1_partition)`, `none` when
  `FIXED_PARTITION_EXISTS(slot1_partition)` is false. -/
  slot1_partition : Option Int
  /-- As `slot1_partition`, for `slot2_partition`. -/
  slot2_partition : Option Int
  /-- As `slot1_partition`, for `slot3_partition`. -/
  slot3_partition : Option Int
  /-- As `slot1_partition`, for `slot4_partition`. -/
  slot4_partition : Option Int
  /-- As `slot1_partition`, for `slot5_partition`. -/
  slot5_partition : Option Int

/-! ## The functions of the file -/

/-- Source `flash_device_base(fd_id, ret)`: the status and the content of
`*ret` afterwards. -/
def flash_device_base (b : Build) (fd_id : Nat) (ret : Nat) : Int × Nat :=
  if fd_id ≠ b.FLASH_DEVICE_ID then
    (-b.EINVAL, ret)
  else
    (0, b.FLASH_DEVICE_BASE)

/-- Source `flash_area_id_from_multi_image_slot(image_index, slot)`. -/
def flash_area_id_from_multi_image_slot (b : Build) (image_index slot : Int) : Int :=
  let id : Int := -1
  let r := b.flash_area_id_from_multi_image_slot_hook image_index slot id
  if r.1 ≠ b.BOOT_HOOK_REGULAR then
    r.2
  else if slot = 0 then
    b.FLASH_AREA_IMAGE_PRIMARY image_index
  else if slot = 1 ∧ b.CONFIG_SINGLE_APPLICATION_SLOT = false then
    b.FLASH_AREA_IMAGE_SECONDARY image_index
  else
    -b.EINVAL

/-- Source `flash_area_id_from_image_slot(slot)`. -/
def flash_area_id_from_image_slot (b : Build) (slot : Int) : Int :=
  flash_area_id_from_multi_image_slot b 0 slot

/-- Source `flash_area_id_to_multi_image_slot(image_index, area_id)`. -/
def flash_area_id_to_multi_image_slot (b : Build) (image_index area_id : Int) : Int :=
  if area_id = b.FLASH_AREA_IMAGE_PRIMARY image_index then
    0
  else if b.CONFIG_SINGLE_APPLICATION_SLOT = false ∧
      area_id = b.FLASH_AREA_IMAGE_SECONDARY image_index then
    1
  else
    -1

/-- One optional `case` of `flash_area_id_from_direct_image`: compiled in only
when the partition exists, otherwise control reaches `return -EINVAL`. -/
def fixed_partition_or_einval (b : Build) (p : Option Int) : Int :=
  match p with
  | some id => id
  | none => -b.EINVAL

/-- Source `flash_area_id_from_direct_image(image_id)`. -/
def flash_area_id_from_direct_image (b : Build) (image_id : Int) : Int :=
  if image_id = 0 ∨ image_id = 1 then b.slot0_partition
  else if image_id = 2 then fixed_partition_or_einval b b.slot1_partition
  else if image_id = 3 then fixed_partition_or_einval b b.slot2_partition
  else if image_id = 4 then fixed_partition_or_einval b b.slot3_partition
  else if image_id = 5 then fixed_partition_or_einval b b.slot4_partition
  else if image_id = 6 then fixed_partition_or_einval b b.slot5_partition
  else -b.EINVAL

/-- Source `flash_area_sector_from_off(off, sector)`: the status, the content
of `*sector` afterwards and the driver state. -/
def flash_area_sector_from_off {σ : Type} (b : Build)
    (flash_get_page_info_by_offs : flash_driver σ) (st : σ)
    (off : Int) (sector : flash_sector) : Int × flash_sector × σ :=
  let r := flash_get_page_info_by_offs st b.flash_dev off
  let rc := r.1
  let page := r.2.1
  if rc ≠ 0 then
    (rc, sector, r.2.2)
  else
    (rc, { fs_off := page.start_offset, fs_size := page.size }, r.2.2)

/-- Source `flash_area_get_device_id(fa)`; the result type is `uint8_t`. -/
def flash_area_get_device_id (b : Build) (_fa : flash_area) : Nat :=
  b.FLASH_DEVICE_ID % 256

/-- Source constant `ERASED_VAL`. -/
def ERASED_VAL : Nat := 0xff

/-- Source `flash_area_erased_val(fap)` (the weak default). -/
def flash_area_erased_val (_fap : flash_area) : Nat :=
  ERASED_VAL

/-- Source `flash_area_get_sector(fap, off, fsp)`: the status, the content of
`*fsp` afterwards and the driver state. -/
def flash_area_get_sector {σ : Type} (b : Build)
    (flash_get_page_info_by_offs : flash_driver σ) (st : σ)
    (fap : flash_area) (off : Int) (fsp : flash_sector) : Int × flash_sector × σ :=
  if off < 0 ∨ to_size_t off ≥ fap.fa_size then
    (-b.ERANGE, fsp, st)
  else
    let r := flash_get_page_info_by_offs st fap.fa_dev (wrap_off_t (fap.fa_off + off))
    let rc := r.1
    let fpi := r.2.1
    if rc = 0 then
      (rc, { fs_off := wrap_off_t (fpi.start_offset - fap.fa_off), fs_size := fpi.size }, r.2.2)
    else
      (rc, fsp, r.2.2)

/-! ## Concrete builds and drivers used as instances -/

/-- A flash with pages of one size `p`: the query always succeeds and reports
the page `p * (a / p)` of size `p`; the driver has no state. -/
def uniform_driver (p : Nat) : flash_driver Unit :=
  fun st _dev a => (0, { start_offset := p * (a / p), size := p, index := (a / p).toNat }, st)

/-- A driver as `uniform_driver` that records every offset it is asked about. -/
def logging_driver (p : Nat) : flash_driver (List Int) :=
  fun st _dev a => (0, { start_offset := p * (a / p), size := p, index := (a / p).toNat }, a :: st)

/-- The hook of a build without hooks: declines with status `regular` and
leaves the id alone. -/
def no_hook (regular : Int) : Int → Int → Int → Int × Int :=
  fun _ _ id => (regular, id)

/-- Partition table of a two-image build: image 0 has areas 1 and 2, image 1
has areas 3 and 4; other indices get 255. -/
def two_image_primary (x : Int) : Int := if x = 0 then 1 else if x = 1 then 3 else 255

/-- Secondary areas of the two-image table. -/
def two_image_secondary (x : Int) : Int := if x = 0 then 2 else if x = 1 then 4 else 255

/-- A two-image, multi-slot build without hooks. -/
def two_image_build : Build where
  EINVAL := 22
  ERANGE := 34
  BOOT_HOOK_REGULAR := 1
  CONFIG_SINGLE_APPLICATION_SLOT := false
  FLASH_AREA_IMAGE_PRIMARY := two_image_primary
  FLASH_AREA_IMAGE_SECONDARY := two_image_secondary
  flash_area_id_from_multi_image_slot_hook := no_hook 1
  FLASH_DEVICE_ID := 0
  FLASH_DEVICE_BASE := 0
  flash_dev := 0
  slot0_partition := 1
  slot1_partition := some 2
  slot2_partition := some 3
  slot3_partition := some 4
  slot4_partition := none
  slot5_partition := none

/-- A single-application-slot build without hooks: both macros name slot 0. -/
def single_slot_build : Build :=
  { two_image_build with
    CONFIG_SINGLE_APPLICATION_SLOT := true
    FLASH_AREA_IMAGE_PRIMARY := fun _ => 1
    FLASH_AREA_IMAGE_SECONDARY := fun _ => 1 }

/-- A single-slot build whose hook resolves every request to area 7. -/
def single_slot_hooked_build : Build :=
  { single_slot_build with
    flash_area_id_from_multi_image_slot_hook := fun _ _ _ => (0, 7) }

/-- The two-image build with a hook that fails with status -5 and does not
write the id. -/
def failing_hook_build : Build :=
  { two_image_build with
    flash_area_id_from_multi_image_slot_hook := fun _ _ id => (-5, id) }

/-- The two-image build with a hook that writes area 3 and then fails with
status -5. -/
def failing_writing_hook_build : Build :=
  { two_image_build with
    flash_area_id_from_multi_image_slot_hook := fun _ _ _ => (-5, 3) }

/-- An area of one and a half 4096-byte pages starting on a page boundary. -/
def unaligned_area : flash_area :=
  { fa_id := 3, fa_off := 4096, fa_size := 6144, fa_dev := 0 }

/-- An area of two 4096-byte pages starting on a page boundary. -/
def aligned_area : flash_area :=
  { fa_id := 3, fa_off := 4096, fa_size := 8192, fa_dev := 0 }

/-- The two-image, multi-slot build with a hook that resolves every request to
area 7. -/
def resolving_hook_build : Build :=
  { two_image_build with
    flash_area_id_from_multi_image_slot_hook := fun _ _ _ => (0, 7) }

/-- The two-image build with `slot1_partition` compiled in under id 5. -/
def direct_upload_build : Build :=
  { two_image_build with slot1_partition := some 5 }

/-- A driver whose page query fails with status `rc` and leaves arbitrary
content in `info`. -/
def failing_driver (rc : Int) : flash_driver Unit :=
  fun st _dev _a => (rc, { start_offset := 1, size := 2, index := 3 }, st)

/-- A flash of `n` pages of size `p`: inside `0 ≤ a < p * n` the query succeeds
and reports the page `p * (a / p)` of size `p`; outside it fails with -22. -/
def finite_uniform_driver (p n : Nat) : flash_driver Unit :=
  fun st _dev a =>
    if 0 ≤ a ∧ a < (p : Int) * n then
      (0, { start_offset := p * (a / p), size := p, index := (a / p).toNat }, st)
    else
      (-22, { start_offset := 0, size := 0, index := 0 }, st)

/-- Two devices: the query fails with -5 on device 1 and behaves as
`finite_uniform_driver 4096 16` on every other device. -/
def second_device_failing_driver : flash_driver Unit :=
  fun st dev a =>
    if dev = 1 then (-5, { start_offset := 1, size := 2, index := 3 }, st)
    else finite_uniform_driver 4096 16 st dev a

/-- An area of two 4096-byte pages on device 1, not the configured device 0 of
`two_image_build`. -/
def second_device_area : flash_area :=
  { fa_id := 4, fa_off := 4096, fa_size := 8192, fa_dev := 1 }

/-- An area of 4096 bytes whose base is 8192 below the top of the `off_t`
range. -/
def high_area : flash_area :=
  { fa_id := 5, fa_off := 2147475456, fa_size := 4096, fa_dev := 0 }

/-- A driver that answers every query with one page that starts at -20480 and
has the largest `size_t` size. -/
def whole_range_driver : flash_driver Unit :=
  fun st _dev _a => (0, { start_offset := -20480, size := 4294967295, index := 0 }, st)

/-! ## Arithmetic of the machine integers -/

theorem wrap_off_t_eq_self {x : Int} (h : is_off_t x) : wrap_off_t x = x := by
  unfold is_off_t at h
  unfold wrap_off_t
  omega

theorem to_size_t_eq_toNat {x : Int} (h0 : 0 ≤ x) (h : x < 4294967296) :
    to_size_t x = x.toNat := by
  unfold to_size_t
  rw [Int.emod_eq_of_lt h0 h]

/-! ## Slot resolver and reverse slot resolver -/

/-- C1: round trip.  When the hook declines, resolving slot `s` of image `i`
and mapping the area id back gives `s`: for `s = 0` and `s = 1` in a multi-slot
build whose table gives image `i` distinct primary and secondary ids, and for
`s = 0` in a single-application-slot build. -/
theorem slot_round_trip (b : Build) (i s : Int)
    (hdecline : (b.flash_area_id_from_multi_image_slot_hook i s (-1)).1 = b.BOOT_HOOK_REGULAR)
    (hcase : (b.CONFIG_SINGLE_APPLICATION_SLOT = false ∧
        b.FLASH_AREA_IMAGE_PRIMARY i ≠ b.FLASH_AREA_IMAGE_SECONDARY i ∧ (s = 0 ∨ s = 1)) ∨
      (b.CONFIG_SINGLE_APPLICATION_SLOT = true ∧ s = 0)) :
    flash_area_id_to_multi_image_slot b i (flash_area_id_from_multi_image_slot b i s) = s := by
  unfold flash_area_id_from_multi_image_slot
  simp only [hdecline, ne_eq, not_true_eq_false, if_false]
  rcases hcase with ⟨hmulti, hne, hs | hs⟩ | ⟨_, hs⟩
  · subst hs
    simp [flash_area_id_to_multi_image_slot]
  · subst hs
    have hne' : ¬ b.FLASH_AREA_IMAGE_SECONDARY i = b.FLASH_AREA_IMAGE_PRIMARY i :=
      fun h => hne h.symm
    simp [flash_area_id_to_multi_image_slot, hmulti, hne']
  · subst hs
    simp [flash_area_id_to_multi_image_slot]

/-- Instance of C1: slot 1 of image 1 in the two-image build. -/
theorem slot_round_trip_witness :
    flash_area_id_to_multi_image_slot two_image_build 1
      (flash_area_id_from_multi_image_slot two_image_build 1 1) = 1 :=
  slot_round_trip two_image_build 1 1 rfl
    (Or.inl ⟨rfl, by decide, Or.inr rfl⟩)

/-! ## Sector geometry -/

/-- What `flash_area_get_sector` does once the range check has passed and the
address `fa_off + off` is representable: it asks the driver about that
address. -/
theorem flash_area_get_sector_in_range {σ : Type} (b : Build) (drv : flash_driver σ) (st : σ)
    (fap : flash_area) (off : Int) (fsp : flash_sector)
    (h0 : 0 ≤ off) (hlt : off < fap.fa_size) (hoff : 0 ≤ fap.fa_off)
    (habs : fap.fa_off + off < 2147483648) :
    flash_area_get_sector b drv st fap off fsp =
      if (drv st fap.fa_dev (fap.fa_off + off)).1 = 0 then
        (0, { fs_off := wrap_off_t ((drv st fap.fa_dev (fap.fa_off + off)).2.1.start_offset
                - fap.fa_off),
              fs_size := (drv st fap.fa_dev (fap.fa_off + off)).2.1.size },
          (drv st fap.fa_dev (fap.fa_off + off)).2.2)
      else
        ((drv st fap.fa_dev (fap.fa_off + off)).1, fsp,
          (drv st fap.fa_dev (fap.fa_off + off)).2.2) := by
  have hw : wrap_off_t (fap.fa_off + off) = fap.fa_off + off :=
    wrap_off_t_eq_self ⟨by omega, habs⟩
  have hc : to_size_t off = off.toNat := to_size_t_eq_toNat h0 (by omega)
  have hguard : ¬ (off < 0 ∨ to_size_t off ≥ fap.fa_size) := by
    rw [hc]
    omega
  unfold flash_area_get_sector
  simp only [hguard, if_false, hw]
  split_ifs with hrc
  · rw [hrc]
  · rfl

/-- C2, as stated, fails: in an area of 6144 bytes at 4096 on a flash with
4096-byte pages, offset 5000 is in range, the driver succeeds and reports the
page 8192..12288 that contains address 9096, and the sector returned, of offset
4096 and size 4096, contains 5000 but ends at 8192, past the area size 6144. -/
theorem get_sector_page_past_area_end :
    (0 : Int) ≤ 5000 ∧ (5000 : Int) < unaligned_area.fa_size ∧
    uniform_driver 4096 () unaligned_area.fa_dev (unaligned_area.fa_off + 5000)
      = (0, { start_offset := 8192, size := 4096, index := 2 }, ()) ∧
    (8192 : Int) ≤ unaligned_area.fa_off + 5000 ∧
    unaligned_area.fa_off + 5000 < 8192 + 4096 ∧
    flash_area_get_sector two_image_build (uniform_driver 4096) () unaligned_area 5000
      { fs_off := 0, fs_size := 0 } = (0, { fs_off := 4096, fs_size := 4096 }, ()) ∧
    ¬ ((4096 : Int) + 4096 ≤ unaligned_area.fa_size) := by
  refine ⟨by decide, by decide, by decide, by decide, by decide, by decide, by decide⟩

/-- C2, amended: for an area at `fa_off ≥ 0` and an offset `0 ≤ o < fa_size`
whose absolute address `fa_off + o` is representable in `off_t`, when the page
query succeeds and returns a page, of start at least 0, that contains
`fa_off + o`, the function returns 0, has consumed the driver's answer, and the
sector has `fs_off = start - fa_off`, `fs_size = size` and
`fs_off ≤ o < fs_off + fs_size`.  The sector lies inside the area
(`0 ≤ fs_off` and `fs_off + fs_size ≤ fa_size`) exactly when the page does
(`fa_off ≤ start` and `start + size ≤ fa_off + fa_size`). -/
theorem get_sector_contains_offset {σ : Type} (b : Build) (drv : flash_driver σ) (st st' : σ)
    (P : flash_area) (o : Int) (fsp : flash_sector) (page : flash_pages_info)
    (h0 : 0 ≤ o) (hlt : o < P.fa_size) (hoff : 0 ≤ P.fa_off)
    (habs : P.fa_off + o < 2147483648)
    (hdrv : drv st P.fa_dev (P.fa_off + o) = (0, page, st'))
    (hstart : 0 ≤ page.start_offset)
    (hlo : page.start_offset ≤ P.fa_off + o)
    (hhi : P.fa_off + o < page.start_offset + page.size) :
    (flash_area_get_sector b drv st P o fsp).1 = 0 ∧
    (flash_area_get_sector b drv st P o fsp).2.2 = st' ∧
    (flash_area_get_sector b drv st P o fsp).2.1.fs_off = page.start_offset - P.fa_off ∧
    (flash_area_get_sector b drv st P o fsp).2.1.fs_size = page.size ∧
    (flash_area_get_sector b drv st P o fsp).2.1.fs_off ≤ o ∧
    o < (flash_area_get_sector b drv st P o fsp).2.1.fs_off
          + (flash_area_get_sector b drv st P o fsp).2.1.fs_size ∧
    ((0 ≤ (flash_area_get_sector b drv st P o fsp).2.1.fs_off ∧
        (flash_area_get_sector b drv st P o fsp).2.1.fs_off
          + (flash_area_get_sector b drv st P o fsp).2.1.fs_size ≤ P.fa_size) ↔
      (P.fa_off ≤ page.start_offset ∧
        page.start_offset + page.size ≤ P.fa_off + P.fa_size)) := by
  have hsub : wrap_off_t (page.start_offset - P.fa_off) = page.start_offset - P.fa_off :=
    wrap_off_t_eq_self ⟨by omega, by omega⟩
  rw [flash_area_get_sector_in_range b drv st P o fsp h0 hlt hoff habs, hdrv]
  simp only [if_true, hsub]
  refine ⟨trivial, trivial, trivial, trivial, by omega, by omega, ?_⟩
  constructor
  · rintro ⟨h1, h2⟩
    exact ⟨by omega, by omega⟩
  · rintro ⟨h1, h2⟩
    exact ⟨by omega, by omega⟩

/-- Instance of the amended C2: offset 4100 of the two-page area; the page
4096..8192 inside the area at 4096 gives the sector of offset 4096, size 4096. -/
theorem get_sector_contains_offset_witness :
    (flash_area_get_sector two_image_build (uniform_driver 4096) () aligned_area 4100
        { fs_off := 0, fs_size := 0 }).1 = 0 ∧
    (flash_area_get_sector two_image_build (uniform_driver 4096) () aligned_area 4100
        { fs_off := 0, fs_size := 0 }).2.1 = { fs_off := 4096, fs_size := 4096 } ∧
    (flash_area_get_sector two_image_build (uniform_driver 4096) () aligned_area 4100
        { fs_off := 0, fs_size := 0 }).2.1.fs_off ≤ 4100 := by
  have h := get_sector_contains_offset two_image_build (uniform_driver 4096) () ()
    aligned_area 4100 { fs_off := 0, fs_size := 0 }
    { start_offset := 8192, size := 4096, index := 2 }
    (by decide) (by decide) (by decide) (by decide) (by decide) (by decide) (by decide)
    (by decide)
  exact ⟨h.1, by decide, h.2.2.2.2.1⟩

/-- C3: for an offset `o` of type `off_t` with `o < 0` or `o ≥ fa_size`,
`flash_area_get_sector` returns `-ERANGE`, hands back the output sector it was
given and leaves the driver state as it was, whatever the driver: the driver is
not called. -/
theorem get_sector_out_of_range {σ : Type} (b : Build) (drv : flash_driver σ) (st : σ)
    (P : flash_area) (o : Int) (fsp : flash_sector)
    (ho : is_off_t o) (hrange : o < 0 ∨ (P.fa_size : Int) ≤ o) :
    flash_area_get_sector b drv st P o fsp = (-b.ERANGE, fsp, st) := by
  unfold is_off_t at ho
  have hguard : o < 0 ∨ to_size_t o ≥ P.fa_size := by
    rcases hrange with hneg | hge
    · exact Or.inl hneg
    · right
      have h0 : 0 ≤ o := le_trans (Int.ofNat_nonneg _) hge
      rw [to_size_t_eq_toNat h0 (by omega)]
      omega
  unfold flash_area_get_sector
  rw [if_pos hguard]

/-- Instance of C3: the offset equal to the size of the area, with a driver
that records its calls: the record stays empty. -/
theorem get_sector_out_of_range_witness :
    flash_area_get_sector two_image_build (logging_driver 4096) [] aligned_area 8192
      { fs_off := 7, fs_size := 9 } = (-34, { fs_off := 7, fs_size := 9 }, []) :=
  get_sector_out_of_range two_image_build (logging_driver 4096) [] aligned_area 8192
    { fs_off := 7, fs_size := 9 } (by decide) (Or.inr (by decide))

/-! ## Device identity -/

/-- C4: with a non-zero errno constant `EINVAL`, `flash_device_base` returns 0
with `FLASH_DEVICE_BASE` stored exactly when the id is `FLASH_DEVICE_ID`; for
any other id it returns `-EINVAL` and the content of `*ret` is the one it was
given. -/
theorem flash_device_base_iff (b : Build) (d ret : Nat) (herrno : 0 < b.EINVAL) :
    (((flash_device_base b d ret).1 = 0 ∧ (flash_device_base b d ret).2 = b.FLASH_DEVICE_BASE)
        ↔ d = b.FLASH_DEVICE_ID) ∧
    (d ≠ b.FLASH_DEVICE_ID → flash_device_base b d ret = (-b.EINVAL, ret)) := by
  unfold flash_device_base
  by_cases hd : d = b.FLASH_DEVICE_ID
  · simp [hd]
  · have hne : -b.EINVAL ≠ 0 := by omega
    simp [hd, hne]

/-- Instance of C4: the two-image build has device id 0; id 1 is refused and
the content 77 of `*ret` stays. -/
theorem flash_device_base_iff_witness :
    (((flash_device_base two_image_build 1 77).1 = 0 ∧
        (flash_device_base two_image_build 1 77).2 = two_image_build.FLASH_DEVICE_BASE)
        ↔ 1 = two_image_build.FLASH_DEVICE_ID) ∧
    (1 ≠ two_image_build.FLASH_DEVICE_ID →
      flash_device_base two_image_build 1 77 = (-two_image_build.EINVAL, 77)) :=
  flash_device_base_iff two_image_build 1 77 (by decide)

/-! ## The default rule and the hook -/

/-- C5: default rule.  When the hook declines, whatever value `v` it left in
its output id, the result is the primary area of the image for slot 0, the
secondary area for slot 1 in a multi-slot build, and `-EINVAL` for every other
slot (slot 1 of a single-application-slot build included). -/
theorem default_rule (b : Build) (i s v : Int)
    (hdecline : b.flash_area_id_from_multi_image_slot_hook i s (-1) = (b.BOOT_HOOK_REGULAR, v)) :
    flash_area_id_from_multi_image_slot b i s =
      if s = 0 then b.FLASH_AREA_IMAGE_PRIMARY i
      else if s = 1 ∧ b.CONFIG_SINGLE_APPLICATION_SLOT = false then
        b.FLASH_AREA_IMAGE_SECONDARY i
      else -b.EINVAL := by
  unfold flash_area_id_from_multi_image_slot
  simp only [hdecline, ne_eq, not_true_eq_false, if_false]

/-- Instance of C5, the scenario of the two-image table: a declining hook that
has scribbled 99 into the id; slot 0 of image 1 is area 3, slot 1 is area 4 and
slot 2 is `-EINVAL`. -/
theorem default_rule_witness :
    flash_area_id_from_multi_image_slot
      { two_image_build with flash_area_id_from_multi_image_slot_hook := fun _ _ _ => (1, 99) }
      1 0 = 3 ∧
    flash_area_id_from_multi_image_slot
      { two_image_build with flash_area_id_from_multi_image_slot_hook := fun _ _ _ => (1, 99) }
      1 1 = 4 ∧
    flash_area_id_from_multi_image_slot
      { two_image_build with flash_area_id_from_multi_image_slot_hook := fun _ _ _ => (1, 99) }
      1 2 = -22 :=
  ⟨(default_rule _ 1 0 99 rfl).trans (by decide),
   (default_rule _ 1 1 99 rfl).trans (by decide),
   (default_rule _ 1 2 99 rfl).trans (by decide)⟩

/-- C6, as stated, fails: in a single-application-slot build whose hook
resolves the request, slot 1 of image 0 gives the hook's area 7, not
`-EINVAL`. -/
theorem single_slot_secondary_hook_resolves :
    single_slot_hooked_build.CONFIG_SINGLE_APPLICATION_SLOT = true ∧
    flash_area_id_from_multi_image_slot single_slot_hooked_build 0 1 = 7 ∧
    flash_area_id_from_multi_image_slot single_slot_hooked_build 0 1
      ≠ -single_slot_hooked_build.EINVAL := by
  refine ⟨rfl, by decide, by decide⟩

/-- C6, amended: in a single-application-slot build, when the hook declines,
slot 1 of every image gives `-EINVAL`. -/
theorem single_slot_secondary_invalid (b : Build) (i : Int)
    (hsingle : b.CONFIG_SINGLE_APPLICATION_SLOT = true)
    (hdecline : (b.flash_area_id_from_multi_image_slot_hook i 1 (-1)).1 = b.BOOT_HOOK_REGULAR) :
    flash_area_id_from_multi_image_slot b i 1 = -b.EINVAL := by
  unfold flash_area_id_from_multi_image_slot
  simp [hdecline, hsingle]

/-- Instance of the amended C6: the single-slot build without hooks. -/
theorem single_slot_secondary_invalid_witness :
    flash_area_id_from_multi_image_slot single_slot_build 5 1 = -22 :=
  single_slot_secondary_invalid single_slot_build 5 rfl rfl

/-- C7: hook short-circuit.  When the status of the hook is not
`BOOT_HOOK_REGULAR`, the result is the content the hook left in its output id,
for every slot value `s`, valid role or not; and any other build `b2` with the
same hook and the same `BOOT_HOOK_REGULAR`, whatever its partition table and
its single-application-slot setting, gives the same result. -/
theorem hook_short_circuit (b b2 : Build) (i s : Int)
    (hresolve : (b.flash_area_id_from_multi_image_slot_hook i s (-1)).1 ≠ b.BOOT_HOOK_REGULAR)
    (hhook : b2.flash_area_id_from_multi_image_slot_hook
      = b.flash_area_id_from_multi_image_slot_hook)
    (hregular : b2.BOOT_HOOK_REGULAR = b.BOOT_HOOK_REGULAR) :
    flash_area_id_from_multi_image_slot b i s
      = (b.flash_area_id_from_multi_image_slot_hook i s (-1)).2 ∧
    flash_area_id_from_multi_image_slot b2 i s = flash_area_id_from_multi_image_slot b i s := by
  unfold flash_area_id_from_multi_image_slot
  simp only [hhook, hregular, ne_eq, hresolve, not_false_eq_true, if_true, and_self]

/-- Instance of C7: the hook that resolves to area 7, at the invalid slot 9, in
a single-slot build and in the two-image multi-slot build with that hook. -/
theorem hook_short_circuit_witness :
    flash_area_id_from_multi_image_slot single_slot_hooked_build 1 9 = 7 ∧
    flash_area_id_from_multi_image_slot
      { two_image_build with flash_area_id_from_multi_image_slot_hook := fun _ _ _ => (0, 7) }
      1 9 = flash_area_id_from_multi_image_slot single_slot_hooked_build 1 9 :=
  hook_short_circuit single_slot_hooked_build
    { two_image_build with flash_area_id_from_multi_image_slot_hook := fun _ _ _ => (0, 7) }
    1 9 (by decide) rfl rfl

/-- C8, as stated, fails.  A hook that fails with status -5 (neither
`BOOT_HOOK_REGULAR` = 1 nor 0) without writing the id makes the function return
-1, not -5; and a hook that has written 3 before failing with -5 makes it
return 3, the primary area of image 1. -/
theorem hook_error_status_not_returned :
    (failing_hook_build.flash_area_id_from_multi_image_slot_hook 1 0 (-1)).1 = -5 ∧
    (-5 : Int) ≠ failing_hook_build.BOOT_HOOK_REGULAR ∧ (-5 : Int) ≠ 0 ∧
    flash_area_id_from_multi_image_slot failing_hook_build 1 0 = -1 ∧
    flash_area_id_from_multi_image_slot failing_hook_build 1 0 ≠ -5 ∧
    (failing_writing_hook_build.flash_area_id_from_multi_image_slot_hook 1 0 (-1)).1 = -5 ∧
    flash_area_id_from_multi_image_slot failing_writing_hook_build 1 0 = 3 ∧
    failing_writing_hook_build.FLASH_AREA_IMAGE_PRIMARY 1 = 3 := by
  refine ⟨rfl, by decide, by decide, by decide, by decide, rfl, by decide, by decide⟩

/-- C8, amended: when the hook fails with a status `e` that is neither
`BOOT_HOOK_REGULAR` nor 0, the function returns the content of the hook's
output id, not `e`; a hook that hands the id back as it received it makes the
function return the initial value -1, which is negative. -/
theorem hook_failure_returns_id (b : Build) (i s e : Int)
    (hstatus : (b.flash_area_id_from_multi_image_slot_hook i s (-1)).1 = e)
    (hnotregular : e ≠ b.BOOT_HOOK_REGULAR) (_hnotsuccess : e ≠ 0) :
    flash_area_id_from_multi_image_slot b i s
      = (b.flash_area_id_from_multi_image_slot_hook i s (-1)).2 ∧
    ((b.flash_area_id_from_multi_image_slot_hook i s (-1)).2 = -1 →
      flash_area_id_from_multi_image_slot b i s = -1 ∧
      flash_area_id_from_multi_image_slot b i s < 0) := by
  have hres : flash_area_id_from_multi_image_slot b i s
      = (b.flash_area_id_from_multi_image_slot_hook i s (-1)).2 := by
    unfold flash_area_id_from_multi_image_slot
    simp only [hstatus, ne_eq, hnotregular, not_false_eq_true, if_true]
  refine ⟨hres, fun hid => ?_⟩
  rw [hres, hid]
  exact ⟨rfl, by decide⟩

/-- Instance of the amended C8: the hook that fails with -5 without writing. -/
theorem hook_failure_returns_id_witness :
    flash_area_id_from_multi_image_slot failing_hook_build 1 0
      = (failing_hook_build.flash_area_id_from_multi_image_slot_hook 1 0 (-1)).2 ∧
    ((failing_hook_build.flash_area_id_from_multi_image_slot_hook 1 0 (-1)).2 = -1 →
      flash_area_id_from_multi_image_slot failing_hook_build 1 0 = -1 ∧
      flash_area_id_from_multi_image_slot failing_hook_build 1 0 < 0) :=
  hook_failure_returns_id failing_hook_build 1 0 (-5) rfl (by decide) (by decide)

/-- C9: the reverse resolver returns 0 when the id is the primary area of the
image (also when it is the secondary area as well), otherwise 1 when the build
is multi-slot and the id is the secondary area, otherwise -1.  It returns -1
exactly when the id is neither the primary area nor, in a multi-slot build, the
secondary area; and a single-application-slot build never gives 1. -/
theorem reverse_resolver_reference (b : Build) (i a : Int) :
    flash_area_id_to_multi_image_slot b i a =
      (if a = b.FLASH_AREA_IMAGE_PRIMARY i then 0
       else if b.CONFIG_SINGLE_APPLICATION_SLOT = false ∧ a = b.FLASH_AREA_IMAGE_SECONDARY i
         then 1
       else -1) ∧
    (a = b.FLASH_AREA_IMAGE_PRIMARY i → flash_area_id_to_multi_image_slot b i a = 0) ∧
    (flash_area_id_to_multi_image_slot b i a = -1 ↔
      (a ≠ b.FLASH_AREA_IMAGE_PRIMARY i ∧
        ¬ (b.CONFIG_SINGLE_APPLICATION_SLOT = false ∧ a = b.FLASH_AREA_IMAGE_SECONDARY i))) ∧
    (b.CONFIG_SINGLE_APPLICATION_SLOT = true → flash_area_id_to_multi_image_slot b i a ≠ 1) := by
  unfold flash_area_id_to_multi_image_slot
  refine ⟨rfl, fun h => by simp [h], ?_, fun hsingle => ?_⟩
  · split_ifs with h1 h2
    · simp [h1]
    · simp [h1, h2]
    · simp [h1, h2]
  · split_ifs with h1 h2
    · decide
    · rw [hsingle] at h2
      exact absurd h2.1 (by decide)
    · decide

/-- The scenario of C9: in the two-image table, area 3 is slot 0 of image 1,
area 4 is slot 1, and area 2 belongs to no slot of image 1. -/
theorem reverse_resolver_scenario :
    flash_area_id_to_multi_image_slot two_image_build 1 3 = 0 ∧
    flash_area_id_to_multi_image_slot two_image_build 1 4 = 1 ∧
    flash_area_id_to_multi_image_slot two_image_build 1 2 = -1 := by
  refine ⟨by decide, by decide, by decide⟩

/-- C10: the reverse resolver is a right inverse of the default rule, and it
does not depend on the hook.  If it gives the role `r`, 0 or 1, for the area id
`a` of image `i`, then the forward resolver at `(i, r)` with a declining hook
returns `a`.  And for every area id, found or not, replacing the hook of the
build by any other does not change the reverse result. -/
theorem reverse_right_inverse (b : Build) (i a : Int) :
    (∀ r : Int, flash_area_id_to_multi_image_slot b i a = r → (r = 0 ∨ r = 1) →
      (b.flash_area_id_from_multi_image_slot_hook i r (-1)).1 = b.BOOT_HOOK_REGULAR →
      flash_area_id_from_multi_image_slot b i r = a) ∧
    (∀ hook2 : Int → Int → Int → Int × Int,
      flash_area_id_to_multi_image_slot
        { b with flash_area_id_from_multi_image_slot_hook := hook2 } i a
        = flash_area_id_to_multi_image_slot b i a) := by
  refine ⟨?_, fun _ => rfl⟩
  intro r hrev hrole hdecline
  unfold flash_area_id_from_multi_image_slot
  simp only [hdecline, ne_eq, not_true_eq_false, if_false]
  unfold flash_area_id_to_multi_image_slot at hrev
  by_cases hp : a = b.FLASH_AREA_IMAGE_PRIMARY i
  · rw [if_pos hp] at hrev
    subst hrev
    simp [hp]
  · rw [if_neg hp] at hrev
    by_cases hsec : b.CONFIG_SINGLE_APPLICATION_SLOT = false ∧
        a = b.FLASH_AREA_IMAGE_SECONDARY i
    · rw [if_pos hsec] at hrev
      subst hrev
      simp [hsec.1, hsec.2]
    · rw [if_neg hsec] at hrev
      subst hrev
      rcases hrole with h | h
      · exact absurd h (by decide)
      · exact absurd h (by decide)

/-- Instance of C10: area 4 of image 1 has role 1 and resolves back to 4; and
area 2, which is no slot of image 1, gives the same reverse result in the build
whose hook resolves every request to area 2 as in the build without hooks. -/
theorem reverse_right_inverse_witness :
    flash_area_id_from_multi_image_slot two_image_build 1 1 = 4 ∧
    flash_area_id_to_multi_image_slot
      { two_image_build with flash_area_id_from_multi_image_slot_hook := fun _ _ _ => (0, 2) }
      1 2 = flash_area_id_to_multi_image_slot two_image_build 1 2 ∧
    flash_area_id_to_multi_image_slot two_image_build 1 2 = -1 :=
  ⟨(reverse_right_inverse two_image_build 1 4).1 1 (by decide) (Or.inr rfl) rfl,
   (reverse_right_inverse two_image_build 1 2).2 (fun _ _ _ => (0, 2)),
   by decide⟩

/-! ## Distinctness of the resolved ids -/

/-- C11, as stated, fails.  In the two-image, multi-slot build whose hook
resolves every request to area 7, images 0 and 1 get the same area for slot 0,
and image 0 gets the same area for slots 0 and 1.  Without a hook, a table that
answers 255 for the indices 2 and 3 gives both the area 255 for slot 0. -/
theorem resolved_ids_collide :
    (0 : Int) ≠ 1 ∧ (2 : Int) ≠ 3 ∧
    flash_area_id_from_multi_image_slot resolving_hook_build 0 0
      = flash_area_id_from_multi_image_slot resolving_hook_build 1 0 ∧
    flash_area_id_from_multi_image_slot resolving_hook_build 0 0
      = flash_area_id_from_multi_image_slot resolving_hook_build 0 1 ∧
    flash_area_id_from_multi_image_slot two_image_build 2 0
      = flash_area_id_from_multi_image_slot two_image_build 3 0 := by
  refine ⟨by decide, by decide, by decide, by decide, by decide⟩

/-- C11, amended: when the hook declines for the requests involved, the
resolved ids are distinct exactly when the ids of the partition table are:
slot 0 of images `i` and `j` differ iff the primary areas of `i` and `j`
differ; slots 0 and 1 of image `i` differ, in a multi-slot build, iff the
primary and the secondary area of `i` differ and, in a single-application-slot
build, iff the primary area is not the value `-EINVAL`. -/
theorem resolved_ids_distinct_iff (b : Build) (i j : Int)
    (hi0 : (b.flash_area_id_from_multi_image_slot_hook i 0 (-1)).1 = b.BOOT_HOOK_REGULAR)
    (hj0 : (b.flash_area_id_from_multi_image_slot_hook j 0 (-1)).1 = b.BOOT_HOOK_REGULAR)
    (hi1 : (b.flash_area_id_from_multi_image_slot_hook i 1 (-1)).1 = b.BOOT_HOOK_REGULAR) :
    (flash_area_id_from_multi_image_slot b i 0 ≠ flash_area_id_from_multi_image_slot b j 0
      ↔ b.FLASH_AREA_IMAGE_PRIMARY i ≠ b.FLASH_AREA_IMAGE_PRIMARY j) ∧
    (b.CONFIG_SINGLE_APPLICATION_SLOT = false →
      (flash_area_id_from_multi_image_slot b i 0 ≠ flash_area_id_from_multi_image_slot b i 1
        ↔ b.FLASH_AREA_IMAGE_PRIMARY i ≠ b.FLASH_AREA_IMAGE_SECONDARY i)) ∧
    (b.CONFIG_SINGLE_APPLICATION_SLOT = true →
      (flash_area_id_from_multi_image_slot b i 0 ≠ flash_area_id_from_multi_image_slot b i 1
        ↔ b.FLASH_AREA_IMAGE_PRIMARY i ≠ -b.EINVAL)) := by
  have e0 : ∀ k : Int,
      (b.flash_area_id_from_multi_image_slot_hook k 0 (-1)).1 = b.BOOT_HOOK_REGULAR →
      flash_area_id_from_multi_image_slot b k 0 = b.FLASH_AREA_IMAGE_PRIMARY k := by
    intro k hk
    unfold flash_area_id_from_multi_image_slot
    simp [hk]
  rw [e0 i hi0, e0 j hj0]
  refine ⟨Iff.rfl, fun hmulti => ?_, fun hsingle => ?_⟩
  · have e1 : flash_area_id_from_multi_image_slot b i 1 = b.FLASH_AREA_IMAGE_SECONDARY i := by
      unfold flash_area_id_from_multi_image_slot
      simp [hi1, hmulti]
    rw [e1]
  · have e1 : flash_area_id_from_multi_image_slot b i 1 = -b.EINVAL := by
      unfold flash_area_id_from_multi_image_slot
      simp [hi1, hsingle]
    rw [e1]

/-- Instance of the amended C11: images 0 and 1 of the two-image build without
hooks; the areas 1, 3 and 1, 2 of the table are distinct, and so are the
resolved ids. -/
theorem resolved_ids_distinct_iff_witness :
    flash_area_id_from_multi_image_slot two_image_build 0 0
      ≠ flash_area_id_from_multi_image_slot two_image_build 1 0 ∧
    flash_area_id_from_multi_image_slot two_image_build 0 0
      ≠ flash_area_id_from_multi_image_slot two_image_build 0 1 :=
  ⟨(resolved_ids_distinct_iff two_image_build 0 1 rfl rfl rfl).1.mpr (by decide),
   ((resolved_ids_distinct_iff two_image_build 0 1 rfl rfl rfl).2.1 rfl).mpr (by decide)⟩

/-! ## Direct image upload -/

/-- C12: `flash_area_id_from_direct_image` gives the id of `slot0_partition`
for 0 and 1; for `n` from 2 to 6 the id of the partition `slot(n-1)_partition`
when it is compiled in and `-EINVAL` when it is not; and `-EINVAL` for every
`n < 0` and every `n > 6`. -/
theorem direct_image_mapping (b : Build) :
    flash_area_id_from_direct_image b 0 = b.slot0_partition ∧
    flash_area_id_from_direct_image b 1 = b.slot0_partition ∧
    (∀ n : Int, 2 ≤ n → n ≤ 6 → ∀ id : Int,
      [b.slot1_partition, b.slot2_partition, b.slot3_partition, b.slot4_partition,
        b.slot5_partition].get? (n - 2).toNat = some (some id) →
      flash_area_id_from_direct_image b n = id) ∧
    (∀ n : Int, 2 ≤ n → n ≤ 6 →
      [b.slot1_partition, b.slot2_partition, b.slot3_partition, b.slot4_partition,
        b.slot5_partition].get? (n - 2).toNat = some none →
      flash_area_id_from_direct_image b n = -b.EINVAL) ∧
    (∀ n : Int, n < 0 ∨ 6 < n → flash_area_id_from_direct_image b n = -b.EINVAL) := by
  refine ⟨by simp [flash_area_id_from_direct_image],
    by simp [flash_area_id_from_direct_image], ?_, ?_, ?_⟩
  · intro n h2 h6 id hget
    have hn : n = 2 ∨ n = 3 ∨ n = 4 ∨ n = 5 ∨ n = 6 := by omega
    rcases hn with h | h | h | h | h <;> subst h <;>
      simp at hget <;>
      simp [flash_area_id_from_direct_image, fixed_partition_or_einval, hget]
  · intro n h2 h6 hget
    have hn : n = 2 ∨ n = 3 ∨ n = 4 ∨ n = 5 ∨ n = 6 := by omega
    rcases hn with h | h | h | h | h <;> subst h <;>
      simp at hget <;>
      simp [flash_area_id_from_direct_image, fixed_partition_or_einval, hget]
  · intro n hn
    have h0 : ¬ (n = 0 ∨ n = 1) := by omega
    have h2 : ¬ n = 2 := by omega
    have h3 : ¬ n = 3 := by omega
    have h4 : ¬ n = 4 := by omega
    have h5 : ¬ n = 5 := by omega
    have h6 : ¬ n = 6 := by omega
    simp [flash_area_id_from_direct_image, h0, h2, h3, h4, h5, h6]

/-- The scenario of C12: with `slot1_partition` compiled in under id 5, upload
slot 2 gives 5 and upload slot 9 gives `-EINVAL`; slot 5, whose partition
`slot4_partition` is not compiled in, gives `-EINVAL` as well. -/
theorem direct_image_scenario :
    flash_area_id_from_direct_image direct_upload_build 2 = 5 ∧
    flash_area_id_from_direct_image direct_upload_build 9 = -22 ∧
    flash_area_id_from_direct_image direct_upload_build 5 = -22 :=
  ⟨(direct_image_mapping direct_upload_build).2.2.1 2 (by decide) (by decide) 5 (by decide),
   (direct_image_mapping direct_upload_build).2.2.2.2 9 (Or.inr (by decide)),
   (direct_image_mapping direct_upload_build).2.2.2.1 5 (by decide) (by decide) (by decide)⟩

/-! ## Failure of the driver -/

/-- C13: a failure of the driver is passed on and nothing is written.  For
every area `P` and offset `o` of type `off_t` with `0 ≤ o < fa_size`, when the
page query that `flash_area_get_sector` makes returns a non-zero status, the
function returns exactly that status and hands back the output sector it was
given.  And for every offset `off`, when the page query on the configured
device returns a non-zero status, `flash_area_sector_from_off` returns exactly
that status and hands back the output sector it was given.  In both the driver
state is the one the driver left. -/
theorem driver_failure_propagates {σ : Type} (b : Build) (drv : flash_driver σ) (st : σ) :
    (∀ (P : flash_area) (o : Int) (fsp : flash_sector),
      is_off_t o → 0 ≤ o → o < P.fa_size →
      (drv st P.fa_dev (wrap_off_t (P.fa_off + o))).1 ≠ 0 →
      flash_area_get_sector b drv st P o fsp
        = ((drv st P.fa_dev (wrap_off_t (P.fa_off + o))).1, fsp,
            (drv st P.fa_dev (wrap_off_t (P.fa_off + o))).2.2)) ∧
    (∀ (off : Int) (sector : flash_sector),
      (drv st b.flash_dev off).1 ≠ 0 →
      flash_area_sector_from_off b drv st off sector
        = ((drv st b.flash_dev off).1, sector, (drv st b.flash_dev off).2.2)) := by
  constructor
  · intro P o fsp ho h0 hlt hfail
    unfold is_off_t at ho
    have hguard : ¬ (o < 0 ∨ to_size_t o ≥ P.fa_size) := by
      rw [to_size_t_eq_toNat h0 (by omega)]
      omega
    unfold flash_area_get_sector
    simp only [hguard, if_false, hfail]
  · intro off sector hfail
    unfold flash_area_sector_from_off
    simp only [ne_eq, hfail, not_false_eq_true, if_true]

/-- Instance of C13.  The driver fails with -5 on device 1 only:
`flash_area_get_sector` on the area of device 1 returns -5 and the sector 7, 9
it was given, while the configured device 0 answers.  On device 0 the offset
70000 lies past the 16 pages of the flash: `flash_area_sector_from_off` returns
the -22 of the driver and the sector it was given. -/
theorem driver_failure_propagates_witness :
    flash_area_get_sector two_image_build second_device_failing_driver () second_device_area
      4100 { fs_off := 7, fs_size := 9 } = (-5, { fs_off := 7, fs_size := 9 }, ()) ∧
    flash_area_sector_from_off two_image_build second_device_failing_driver () 70000
      { fs_off := 7, fs_size := 9 } = (-22, { fs_off := 7, fs_size := 9 }, ()) ∧
    (second_device_failing_driver () two_image_build.flash_dev 8196).1 = 0 :=
  ⟨(driver_failure_propagates two_image_build second_device_failing_driver ()).1
      second_device_area 4100 { fs_off := 7, fs_size := 9 }
      (by decide) (by decide) (by decide) (by decide),
   (driver_failure_propagates two_image_build second_device_failing_driver ()).2
      70000 { fs_off := 7, fs_size := 9 } (by decide),
   by decide⟩

/-! ## Conversion between the frames of the device and of the area -/

/-- C14: conversion of the frame on a device of uniform pages of size `p > 0`.
Take an area whose base is a multiple of `p` and an offset `o` of type `off_t`
with `0 ≤ o < fa_size` whose absolute address `fa_off + o` is representable in
`off_t`.  When the driver, asked about the device of the area at the absolute
address `fa_off + o`, answers with status 0 and the page of start
`p * ((fa_off + o) / p)` and size `p`, then `flash_area_get_sector` returns 0,
leaves the driver state of that query, and the sector has
`fs_off = p * (o / p)`, which is the start of the driver minus `fa_off`, and
`fs_size = p`.  Nothing is assumed of the driver at any other address, device
or state. -/
theorem uniform_device_sector {σ : Type} (b : Build) (drv : flash_driver σ) (st st' : σ)
    (P : flash_area) (o : Int) (fsp : flash_sector) (p : Nat) (page : flash_pages_info)
    (hp : 0 < p) (hbase : (p : Int) ∣ P.fa_off)
    (ho : is_off_t o) (h0 : 0 ≤ o) (hlt : o < P.fa_size) (habs : is_off_t (P.fa_off + o))
    (hdrv : drv st P.fa_dev (P.fa_off + o) = (0, page, st'))
    (hstart : page.start_offset = p * ((P.fa_off + o) / p))
    (hsize : page.size = p) :
    flash_area_get_sector b drv st P o fsp
      = (0, { fs_off := p * (o / p), fs_size := p }, st') ∧
    (p : Int) * (o / p) = page.start_offset - P.fa_off := by
  have hp0 : (p : Int) ≠ 0 := by omega
  have hppos : (0 : Int) < p := by omega
  have hguard : ¬ (o < 0 ∨ to_size_t o ≥ P.fa_size) := by
    unfold is_off_t at ho
    rw [to_size_t_eq_toNat h0 (by omega)]
    omega
  have hw : wrap_off_t (P.fa_off + o) = P.fa_off + o := wrap_off_t_eq_self habs
  obtain ⟨k, hk⟩ := hbase
  have hdiv : (P.fa_off + o) / (p : Int) = o / (p : Int) + k := by
    rw [hk, add_comm]
    exact Int.add_mul_ediv_left o k hp0
  have hsub : page.start_offset - P.fa_off = p * (o / (p : Int)) := by
    rw [hstart, hdiv, hk]
    ring
  have hle : (p : Int) * (o / (p : Int)) ≤ o := Int.mul_ediv_self_le hp0
  have hnn : 0 ≤ (p : Int) * (o / (p : Int)) :=
    mul_nonneg (le_of_lt hppos) (Int.ediv_nonneg h0 (le_of_lt hppos))
  have hwrap : wrap_off_t ((p : Int) * (o / (p : Int))) = p * (o / (p : Int)) := by
    unfold is_off_t at ho
    exact wrap_off_t_eq_self ⟨by omega, by omega⟩
  refine ⟨?_, hsub.symm⟩
  unfold flash_area_get_sector
  simp only [hguard, if_false, hw, hdrv, if_true, hsub, hwrap, hsize]

/-- Instance of C14, the scenario of the spec, on a flash of 16 pages of 4096
bytes and the two-page area at 4096: offset 0 gives the sector of offset 0
(the driver is asked at 4096) and offset 4100 the sector of offset 4096 (the
driver is asked at 8196 and answers 8192), both of size 4096. -/
theorem uniform_device_sector_witness :
    flash_area_get_sector two_image_build (finite_uniform_driver 4096 16) () aligned_area 0
        { fs_off := 7, fs_size := 9 } = (0, { fs_off := 0, fs_size := 4096 }, ()) ∧
    flash_area_get_sector two_image_build (finite_uniform_driver 4096 16) () aligned_area 4100
        { fs_off := 7, fs_size := 9 } = (0, { fs_off := 4096, fs_size := 4096 }, ()) :=
  ⟨(uniform_device_sector two_image_build (finite_uniform_driver 4096 16) () () aligned_area 0
      { fs_off := 7, fs_size := 9 } 4096 { start_offset := 4096, size := 4096, index := 1 }
      (by decide) ⟨1, by decide⟩ (by decide) (by decide) (by decide) (by decide)
      (by decide) (by decide) rfl).1.trans (by decide),
   (uniform_device_sector two_image_build (finite_uniform_driver 4096 16) () () aligned_area 4100
      { fs_off := 7, fs_size := 9 } 4096 { start_offset := 8192, size := 4096, index := 2 }
      (by decide) ⟨1, by decide⟩ (by decide) (by decide) (by decide) (by decide)
      (by decide) (by decide) rfl).1.trans (by decide)⟩

/-- C15: the device-absolute variant and its relation to the variant of the
area.  For every offset `off` at which the driver query on the configured
device succeeds, `flash_area_sector_from_off` returns 0 and the page start and
size of the driver, unchanged.  And for every area `P` on the configured device
and every offset `o` of type `off_t` with `0 ≤ o < fa_size` whose absolute
address `fa_off + o` is an `off_t`, whether the driver succeeds or fails,
`flash_area_get_sector` at `o` and `flash_area_sector_from_off` at `fa_off + o`
return the same status and leave the same driver state; on status 0 the two
sectors have the same `fs_size`, the relative `fs_off` is the absolute `fs_off`
minus `fa_off` as an `off_t`, and so the absolute `fs_off` equals the relative
`fs_off` plus `fa_off` modulo `2^32`; on any other status both hand back the
sector they were given. -/
theorem absolute_and_relative_sector {σ : Type} (b : Build) (drv : flash_driver σ) (st : σ) :
    (∀ (off : Int) (sector : flash_sector), (drv st b.flash_dev off).1 = 0 →
      flash_area_sector_from_off b drv st off sector
        = (0, { fs_off := (drv st b.flash_dev off).2.1.start_offset,
                fs_size := (drv st b.flash_dev off).2.1.size },
            (drv st b.flash_dev off).2.2)) ∧
    (∀ (P : flash_area) (o : Int) (fsp sector : flash_sector),
      P.fa_dev = b.flash_dev → is_off_t o → 0 ≤ o → o < P.fa_size →
      is_off_t (P.fa_off + o) →
      (flash_area_get_sector b drv st P o fsp).1
        = (flash_area_sector_from_off b drv st (P.fa_off + o) sector).1 ∧
      (flash_area_get_sector b drv st P o fsp).2.2
        = (flash_area_sector_from_off b drv st (P.fa_off + o) sector).2.2 ∧
      ((flash_area_get_sector b drv st P o fsp).1 = 0 →
        (flash_area_get_sector b drv st P o fsp).2.1.fs_size
          = (flash_area_sector_from_off b drv st (P.fa_off + o) sector).2.1.fs_size ∧
        (flash_area_get_sector b drv st P o fsp).2.1.fs_off
          = wrap_off_t ((flash_area_sector_from_off b drv st (P.fa_off + o) sector).2.1.fs_off
              - P.fa_off) ∧
        (flash_area_sector_from_off b drv st (P.fa_off + o) sector).2.1.fs_off % 4294967296
          = ((flash_area_get_sector b drv st P o fsp).2.1.fs_off + P.fa_off) % 4294967296) ∧
      ((flash_area_get_sector b drv st P o fsp).1 ≠ 0 →
        (flash_area_get_sector b drv st P o fsp).2.1 = fsp ∧
        (flash_area_sector_from_off b drv st (P.fa_off + o) sector).2.1 = sector)) := by
  constructor
  · intro off sector hok
    unfold flash_area_sector_from_off
    simp only [hok, ne_eq, not_true_eq_false, if_false]
  · intro P o fsp sector hdev ho h0 hlt habs
    have hguard : ¬ (o < 0 ∨ to_size_t o ≥ P.fa_size) := by
      unfold is_off_t at ho
      rw [to_size_t_eq_toNat h0 (by omega)]
      omega
    have hw : wrap_off_t (P.fa_off + o) = P.fa_off + o := wrap_off_t_eq_self habs
    unfold flash_area_get_sector flash_area_sector_from_off
    simp only [hguard, if_false, hw, hdev, ne_eq]
    by_cases hrc : (drv st b.flash_dev (P.fa_off + o)).1 = 0
    · simp only [hrc, if_true, not_true_eq_false, if_false, true_and, forall_true_left,
        false_imp_iff, and_true]
      unfold wrap_off_t
      omega
    · simp only [hrc, if_false, not_false_eq_true, if_true, true_and, false_imp_iff,
        forall_true_left, and_self]

/-- Instance of C15 on the flash of 16 pages of 4096 bytes, with the two-page
area at 4096 on the configured device 0.  At offset 4100 both variants return
0; the absolute sector starts at 8192 and the relative one at 4096, both of
size 4096.  With the driver that fails with -5 both variants return -5. -/
theorem absolute_and_relative_sector_witness :
    flash_area_sector_from_off two_image_build (finite_uniform_driver 4096 16) () 8196
      { fs_off := 7, fs_size := 9 } = (0, { fs_off := 8192, fs_size := 4096 }, ()) ∧
    (flash_area_get_sector two_image_build (finite_uniform_driver 4096 16) () aligned_area 4100
        { fs_off := 7, fs_size := 9 }).1
      = (flash_area_sector_from_off two_image_build (finite_uniform_driver 4096 16) ()
          (aligned_area.fa_off + 4100) { fs_off := 7, fs_size := 9 }).1 ∧
    flash_area_get_sector two_image_build (finite_uniform_driver 4096 16) () aligned_area 4100
        { fs_off := 7, fs_size := 9 } = (0, { fs_off := 4096, fs_size := 4096 }, ()) ∧
    (flash_area_get_sector two_image_build (failing_driver (-5)) () aligned_area 4100
        { fs_off := 7, fs_size := 9 }).1
      = (flash_area_sector_from_off two_image_build (failing_driver (-5)) ()
          (aligned_area.fa_off + 4100) { fs_off := 7, fs_size := 9 }).1 ∧
    (flash_area_get_sector two_image_build (failing_driver (-5)) () aligned_area 4100
        { fs_off := 7, fs_size := 9 }).1 = -5 :=
  ⟨((absolute_and_relative_sector two_image_build (finite_uniform_driver 4096 16) ()).1 8196
      { fs_off := 7, fs_size := 9 } (by decide)).trans (by decide),
   ((absolute_and_relative_sector two_image_build (finite_uniform_driver 4096 16) ()).2
      aligned_area 4100 { fs_off := 7, fs_size := 9 } { fs_off := 7, fs_size := 9 }
      rfl (by decide) (by decide) (by decide) (by decide)).1,
   by decide,
   ((absolute_and_relative_sector two_image_build (failing_driver (-5)) ()).2
      aligned_area 4100 { fs_off := 7, fs_size := 9 } { fs_off := 7, fs_size := 9 }
      rfl (by decide) (by decide) (by decide) (by decide)).1,
   by decide⟩

/-! ## Device id of an area -/

/-- C16: with a device id macro that is a `uint8_t` value, the device id
reported for an area is `FLASH_DEVICE_ID` whatever the area, and
`flash_device_base` at that id returns 0 and stores `FLASH_DEVICE_BASE`. -/
theorem device_id_accepted (b : Build) (fa : flash_area) (ret : Nat)
    (hid : b.FLASH_DEVICE_ID < 256) :
    flash_area_get_device_id b fa = b.FLASH_DEVICE_ID ∧
    flash_device_base b (flash_area_get_device_id b fa) ret = (0, b.FLASH_DEVICE_BASE) := by
  have hget : flash_area_get_device_id b fa = b.FLASH_DEVICE_ID := by
    unfold flash_area_get_device_id
    exact Nat.mod_eq_of_lt hid
  refine ⟨hget, ?_⟩
  rw [hget]
  unfold flash_device_base
  simp

/-- Instance of C16: the two-image build, device id 0, and an area of another
device handle. -/
theorem device_id_accepted_witness :
    flash_area_get_device_id two_image_build
      { fa_id := 9, fa_off := 0, fa_size := 16, fa_dev := 5 } = 0 ∧
    flash_device_base two_image_build
      (flash_area_get_device_id two_image_build
        { fa_id := 9, fa_off := 0, fa_size := 16, fa_dev := 5 }) 77 = (0, 0) :=
  device_id_accepted two_image_build { fa_id := 9, fa_off := 0, fa_size := 16, fa_dev := 5 } 77
    (by decide)

/-! ## The single-image entry point -/

/-- C18: for every slot value and every build, whatever its hook,
`flash_area_id_from_image_slot` is `flash_area_id_from_multi_image_slot` at
image index 0. -/
theorem image_slot_is_multi_image_slot_zero (b : Build) (s : Int) :
    flash_area_id_from_image_slot b s = flash_area_id_from_multi_image_slot b 0 s := by
  unfold flash_area_id_from_image_slot
  rfl

/-! ## Containment and wrap-around -/

/-- C17, as stated, fails in its second half.  On a flash of 8192-byte pages
the two-page area at 4096 starts inside the page 0..8192.  Offset 0 is in
range, the driver is asked at 4096 and answers with the page of start 0 and
size 8192, which contains 4096 and starts before the area.  The function
returns 0 and stores `fs_off = -4096`: that is not the wrapped value
`(0 - 4096) mod 2^32 = 4294963200`, and it is not greater than the offset 0. -/
theorem stored_offset_is_negative :
    (0 : Int) ≤ 0 ∧ (0 : Int) < aligned_area.fa_size ∧
    finite_uniform_driver 8192 16 () aligned_area.fa_dev (wrap_off_t (aligned_area.fa_off + 0))
      = (0, { start_offset := 0, size := 8192, index := 0 }, ()) ∧
    (0 : Int) ≤ aligned_area.fa_off + 0 ∧ aligned_area.fa_off + 0 < 0 + 8192 ∧
    (0 : Int) < aligned_area.fa_off ∧
    flash_area_get_sector two_image_build (finite_uniform_driver 8192 16) () aligned_area 0
      { fs_off := 7, fs_size := 9 } = (0, { fs_off := -4096, fs_size := 8192 }, ()) ∧
    (-4096 : Int) ≠ (0 - aligned_area.fa_off) % 4294967296 ∧
    (0 - aligned_area.fa_off) % 4294967296 = 4294963200 ∧
    ¬ ((0 : Int) < -4096) := by
  refine ⟨by decide, by decide, by decide, by decide, by decide, by decide, by decide,
    by decide, by decide, by decide⟩

/-- C17, amended: for an area `P` and an offset `o` of type `off_t` with
`0 ≤ o < fa_size`, let the driver answer the query of the function with status
0 and a page `{start, size}`, the size a `size_t`, that contains `fa_off + o`.
If the page lies inside the area (`fa_off ≤ start` and
`start + size ≤ fa_off + fa_size`), the subtraction does not wrap: the function
returns 0 with `fs_off = start - fa_off`, and `fs_off ≤ o < fs_off + fs_size`
and `fs_off + fs_size ≤ fa_size`.  If instead `start < fa_off`, the stored
`fs_off` is the `off_t` value of `start - fa_off`.  As long as
`start - fa_off ≥ -2^31` that is the negative number `start - fa_off` itself,
so `fs_off < 0 ≤ o`; only its residue modulo `2^32`, the unsigned reading of
its 32 bits, is `start - fa_off + 2^32` and greater than `o`.  Only when
`start - fa_off < -2^31` does the `off_t` subtraction wrap: then
`start - fa_off + 2^32` is stored, and it is greater than `o`. -/
theorem containment_or_negative_offset {σ : Type} (b : Build) (drv : flash_driver σ)
    (st st' : σ) (P : flash_area) (o : Int) (fsp : flash_sector) (page : flash_pages_info)
    (ho : is_off_t o) (h0 : 0 ≤ o) (hlt : o < P.fa_size)
    (hsize : is_size_t page.size)
    (hdrv : drv st P.fa_dev (wrap_off_t (P.fa_off + o)) = (0, page, st'))
    (hlo : page.start_offset ≤ P.fa_off + o)
    (hhi : P.fa_off + o < page.start_offset + page.size) :
    (P.fa_off ≤ page.start_offset → page.start_offset + page.size ≤ P.fa_off + P.fa_size →
      flash_area_get_sector b drv st P o fsp
        = (0, { fs_off := page.start_offset - P.fa_off, fs_size := page.size }, st') ∧
      page.start_offset - P.fa_off ≤ o ∧
      o < page.start_offset - P.fa_off + page.size ∧
      page.start_offset - P.fa_off + page.size ≤ P.fa_size) ∧
    (page.start_offset < P.fa_off → -2147483648 ≤ page.start_offset - P.fa_off →
      flash_area_get_sector b drv st P o fsp
        = (0, { fs_off := page.start_offset - P.fa_off, fs_size := page.size }, st') ∧
      (flash_area_get_sector b drv st P o fsp).2.1.fs_off < 0 ∧
      (flash_area_get_sector b drv st P o fsp).2.1.fs_off ≤ o ∧
      (flash_area_get_sector b drv st P o fsp).2.1.fs_off % 4294967296
        = page.start_offset - P.fa_off + 4294967296 ∧
      o < (flash_area_get_sector b drv st P o fsp).2.1.fs_off % 4294967296) ∧
    (page.start_offset - P.fa_off < -2147483648 →
      flash_area_get_sector b drv st P o fsp
        = (0, { fs_off := page.start_offset - P.fa_off + 4294967296, fs_size := page.size },
            st') ∧
      o < (flash_area_get_sector b drv st P o fsp).2.1.fs_off) := by
  unfold is_off_t at ho
  unfold is_size_t at hsize
  have hsz : (page.size : Int) < 4294967296 := by omega
  have hguard : ¬ (o < 0 ∨ to_size_t o ≥ P.fa_size) := by
    rw [to_size_t_eq_toNat h0 (by omega)]
    omega
  have hres : flash_area_get_sector b drv st P o fsp
      = (0, { fs_off := wrap_off_t (page.start_offset - P.fa_off), fs_size := page.size },
          st') := by
    unfold flash_area_get_sector
    simp only [hguard, if_false, hdrv, if_true]
  rw [hres]
  refine ⟨fun hin hend => ?_, fun hbefore hrepr => ?_, fun hwraps => ?_⟩
  · have hsub : wrap_off_t (page.start_offset - P.fa_off) = page.start_offset - P.fa_off :=
      wrap_off_t_eq_self ⟨by omega, by omega⟩
    rw [hsub]
    exact ⟨rfl, by omega, by omega, by omega⟩
  · have hsub : wrap_off_t (page.start_offset - P.fa_off) = page.start_offset - P.fa_off :=
      wrap_off_t_eq_self ⟨hrepr, by omega⟩
    rw [hsub]
    refine ⟨rfl, ?_, ?_, ?_, ?_⟩
    · show page.start_offset - P.fa_off < 0
      omega
    · show page.start_offset - P.fa_off ≤ o
      omega
    · show (page.start_offset - P.fa_off) % 4294967296
        = page.start_offset - P.fa_off + 4294967296
      omega
    · show o < (page.start_offset - P.fa_off) % 4294967296
      omega
  · have hsub : wrap_off_t (page.start_offset - P.fa_off)
        = page.start_offset - P.fa_off + 4294967296 := by
      unfold wrap_off_t
      omega
    rw [hsub]
    refine ⟨rfl, ?_⟩
    show o < page.start_offset - P.fa_off + 4294967296
    omega

/-- Instances of the amended C17.  On pages of 4096 bytes the page of offset
4100 of the two-page area at 4096 lies inside the area and the sector starts at
4096.  On pages of 8192 bytes the page of offset 0 starts at 0, before the
area: the stored `fs_off` is -4096, and only its residue modulo `2^32` is
4294963200.  For the area close to the top of the `off_t` range and a page that
starts at -20480 the subtraction wraps and the stored `fs_off` is
2147471360. -/
theorem containment_or_negative_offset_witness :
    flash_area_get_sector two_image_build (finite_uniform_driver 4096 16) () aligned_area 4100
        { fs_off := 7, fs_size := 9 } = (0, { fs_off := 4096, fs_size := 4096 }, ()) ∧
    flash_area_get_sector two_image_build (finite_uniform_driver 8192 16) () aligned_area 0
        { fs_off := 7, fs_size := 9 } = (0, { fs_off := -4096, fs_size := 8192 }, ()) ∧
    (flash_area_get_sector two_image_build (finite_uniform_driver 8192 16) () aligned_area 0
        { fs_off := 7, fs_size := 9 }).2.1.fs_off % 4294967296 = 4294963200 ∧
    flash_area_get_sector two_image_build whole_range_driver () high_area 0
        { fs_off := 7, fs_size := 9 }
      = (0, { fs_off := 2147471360, fs_size := 4294967295 }, ()) :=
  ⟨((containment_or_negative_offset two_image_build (finite_uniform_driver 4096 16) () ()
        aligned_area 4100 { fs_off := 7, fs_size := 9 }
        { start_offset := 8192, size := 4096, index := 2 }
        (by decide) (by decide) (by decide) (by decide) (by decide) (by decide)
        (by decide)).1 (by decide) (by decide)).1.trans (by decide),
   ((containment_or_negative_offset two_image_build (finite_uniform_driver 8192 16) () ()
        aligned_area 0 { fs_off := 7, fs_size := 9 }
        { start_offset := 0, size := 8192, index := 0 }
        (by decide) (by decide) (by decide) (by decide) (by decide) (by decide)
        (by decide)).2.1 (by decide) (by decide)).1.trans (by decide),
   ((containment_or_negative_offset two_image_build (finite_uniform_driver 8192 16) () ()
        aligned_area 0 { fs_off := 7, fs_size := 9 }
        { start_offset := 0, size := 8192, index := 0 }
        (by decide) (by decide) (by decide) (by decide) (by decide) (by decide)
        (by decide)).2.1 (by decide) (by decide)).2.2.2.1.trans (by decide),
   ((containment_or_negative_offset two_image_build whole_range_driver () ()
        high_area 0 { fs_off := 7, fs_size := 9 }
        { start_offset := -20480, size := 4294967295, index := 0 }
        (by decide) (by decide) (by decide) (by decide) (by decide) (by decide)
        (by decide)).2.2 (by decide)).1.trans (by decide)⟩

end FlashMapExtended
